import Mathlib

/-!
Verification development for the aqua-engine renderer core, a shallow
embedding of `src/lib.rs`, `src/camera.rs` and `src/renderer.rs`.

Modelling conventions: the source's `f32` floating-point arithmetic is
idealised as exact real-number (`ℝ`) arithmetic where transcendental
functions (`sin`, `cos`, `sqrt`) occur, and as exact rational (`ℚ`)
arithmetic for the plain constants carried through the rendering state;
machine integers (`u32`) are modelled as `ℕ` (no arithmetic near the
overflow boundary occurs in the modelled code).  GPU handles (device,
queue, surface, buffers, textures) are modelled by the observable data
the code puts into them: configurations, descriptor records and traces
of the commands recorded against them.
-/

/-! ### winit event types (external input interface of `State::input`) -/

namespace winit

/-- winit `ElementState`. -/
inductive ElementState
  | pressed
  | released
deriving DecidableEq

/-- winit `VirtualKeyCode`, restricted to the keys the program inspects;
all remaining keys are collapsed into `other`. -/
inductive VirtualKeyCode
  | space
  | w
  | a
  | s
  | d
  | lshift
  | up
  | down
  | left
  | right
  | escape
  | other (code : ℕ)
deriving DecidableEq

/-- winit `MouseButton`. -/
inductive MouseButton
  | left
  | right
  | middle
deriving DecidableEq

/-- winit `PhysicalSize<u32>`. -/
structure PhysicalSize where
  width : ℕ
  height : ℕ
deriving DecidableEq

/-- The winit `WindowEvent` shapes matched by `State::input` and the run
loop; a keyboard event carries its `ElementState` and optional
`VirtualKeyCode`, scroll deltas are collapsed to a single rational. -/
inductive WindowEvent
  | keyboardInput (state : ElementState) (virtual_keycode : Option VirtualKeyCode)
  | mouseWheel (delta : ℚ)
  | mouseInput (button : MouseButton) (state : ElementState)
  | resized (size : PhysicalSize)
  | closeRequested
  | other
deriving DecidableEq

/-- winit `ControlFlow`, restricted to the two values the run loop ever
assigns (`Poll` at the top of every event, `Exit` on fatal paths). -/
inductive ControlFlow
  | poll
  | exit
deriving DecidableEq

end winit

/-! ### wgpu types (the observable data of the GPU interface) -/

namespace wgpu

/-- wgpu `SurfaceConfiguration`, reduced to the fields the modelled code
reads or writes (`width`, `height`). -/
structure SurfaceConfiguration where
  width : ℕ
  height : ℕ
deriving DecidableEq

/-- wgpu `SurfaceError`, the error type of `Surface::get_current_texture`. -/
inductive SurfaceError
  | lost
  | outdated
  | outOfMemory
  | timeout
deriving DecidableEq

/-- wgpu `TextureFormat`, kept abstract: an opaque identifier. -/
structure TextureFormat where
  id : ℕ
deriving DecidableEq

/-- wgpu `VertexBufferLayout`, kept abstract: an opaque identifier. -/
structure VertexBufferLayout where
  id : ℕ
deriving DecidableEq

/-- wgpu `ShaderModuleDescriptor`, kept abstract: an opaque identifier. -/
structure ShaderModuleDescriptor where
  id : ℕ
deriving DecidableEq

/-- wgpu `PipelineLayout`, kept abstract: an opaque identifier. -/
structure PipelineLayout where
  id : ℕ
deriving DecidableEq

/-- wgpu `PrimitiveTopology`. -/
inductive PrimitiveTopology
  | pointList
  | lineList
  | lineStrip
  | triangleList
  | triangleStrip
deriving DecidableEq

/-- wgpu `FrontFace`. -/
inductive FrontFace
  | ccw
  | cw
deriving DecidableEq

/-- wgpu `Face`. -/
inductive Face
  | front
  | back
deriving DecidableEq

/-- wgpu `PolygonMode`. -/
inductive PolygonMode
  | fill
  | line
  | point
deriving DecidableEq

/-- wgpu `IndexFormat`. -/
inductive IndexFormat
  | uint16
  | uint32
deriving DecidableEq

/-- wgpu `CompareFunction`. -/
inductive CompareFunction
  | never
  | less
  | equal
  | lessEqual
  | greater
  | notEqual
  | greaterEqual
  | always
deriving DecidableEq

/-- wgpu `BlendFactor`, restricted to the factors REPLACE uses. -/
inductive BlendFactor
  | zero
  | one
  | srcAlpha
  | oneMinusSrcAlpha
deriving DecidableEq

/-- wgpu `BlendOperation`. -/
inductive BlendOperation
  | add
  | subtract
  | reverseSubtract
  | min
  | max
deriving DecidableEq

/-- wgpu `BlendComponent`. -/
structure BlendComponent where
  src_factor : BlendFactor
  dst_factor : BlendFactor
  operation : BlendOperation
deriving DecidableEq

/-- wgpu `BlendComponent::REPLACE` = `{ src: One, dst: Zero, op: Add }`. -/
def BlendComponent.REPLACE : BlendComponent :=
  { src_factor := .one, dst_factor := .zero, operation := .add }

/-- wgpu `BlendState`. -/
structure BlendState where
  color : BlendComponent
  alpha : BlendComponent
deriving DecidableEq

/-- wgpu `ColorTargetState` (the color write mask is modelled as the set
bits of `ColorWrites`, as a `ℕ` bitmask; `ALL = 0xF`). -/
structure ColorTargetState where
  format : TextureFormat
  blend : Option BlendState
  write_mask : ℕ
deriving DecidableEq

/-- wgpu `StencilOperation`, restricted to the default (`Keep`). -/
inductive StencilOperation
  | keep
  | zero
  | replace'
deriving DecidableEq

/-- wgpu `StencilFaceState`. -/
structure StencilFaceState where
  compare : CompareFunction
  fail_op : StencilOperation
  depth_fail_op : StencilOperation
  pass_op : StencilOperation
deriving DecidableEq

/-- wgpu `StencilFaceState::IGNORE` = compare Always, all ops Keep. -/
def StencilFaceState.IGNORE : StencilFaceState :=
  { compare := .always, fail_op := .keep, depth_fail_op := .keep, pass_op := .keep }

/-- wgpu `StencilState`; `StencilState::default()` has both faces IGNORE
and zero masks. -/
structure StencilState where
  front : StencilFaceState
  back : StencilFaceState
  read_mask : ℕ
  write_mask : ℕ
deriving DecidableEq

instance : Inhabited StencilState :=
  ⟨{ front := .IGNORE, back := .IGNORE, read_mask := 0, write_mask := 0 }⟩

/-- wgpu `DepthBiasState`; `default()` is all-zero. -/
structure DepthBiasState where
  constant : ℤ
  slope_scale : ℚ
  clamp : ℚ
deriving DecidableEq

instance : Inhabited DepthBiasState := ⟨{ constant := 0, slope_scale := 0, clamp := 0 }⟩

/-- wgpu `DepthStencilState`. -/
structure DepthStencilState where
  format : TextureFormat
  depth_write_enabled : Bool
  depth_compare : CompareFunction
  stencil : StencilState
  bias : DepthBiasState
deriving DecidableEq

/-- wgpu `PrimitiveState`. -/
structure PrimitiveState where
  topology : PrimitiveTopology
  strip_index_format : Option IndexFormat
  front_face : FrontFace
  cull_mode : Option Face
  polygon_mode : PolygonMode
  unclipped_depth : Bool
  conservative : Bool
deriving DecidableEq

/-- wgpu `MultisampleState`. -/
structure MultisampleState where
  count : ℕ
  mask : ℕ
  alpha_to_coverage_enabled : Bool
deriving DecidableEq

/-- wgpu `VertexState`, as recorded by `RenderPipeline::new` (the
compiled shader module is identified with its descriptor). -/
structure VertexState where
  module : ShaderModuleDescriptor
  entry_point : String
  buffers : List VertexBufferLayout
deriving DecidableEq

/-- wgpu `FragmentState`, as recorded by `RenderPipeline::new`. -/
structure FragmentState where
  module : ShaderModuleDescriptor
  entry_point : String
  targets : List ColorTargetState
deriving DecidableEq

/-- wgpu `RenderPipelineDescriptor`, reduced to the observable fields
`RenderPipeline::new` fills in. -/
structure RenderPipelineDescriptor where
  layout : Option PipelineLayout
  vertex : VertexState
  fragment : Option FragmentState
  primitive : PrimitiveState
  depth_stencil : Option DepthStencilState
  multisample : MultisampleState
  multiview : Option ℕ
deriving DecidableEq

end wgpu

/-! ### cgmath (the linear-algebra library used by the source) -/

namespace cgmath

/-- cgmath `Vector3<S>` (also the data of `Point3<S>`). -/
@[ext]
structure Vector3 (α : Type) where
  x : α
  y : α
  z : α
deriving DecidableEq

instance : Add (Vector3 ℝ) := ⟨fun a b => ⟨a.x + b.x, a.y + b.y, a.z + b.z⟩⟩
instance : Sub (Vector3 ℝ) := ⟨fun a b => ⟨a.x - b.x, a.y - b.y, a.z - b.z⟩⟩
instance : SMul ℝ (Vector3 ℝ) := ⟨fun r v => ⟨r * v.x, r * v.y, r * v.z⟩⟩

theorem vec3_add_def (a b : Vector3 ℝ) : a + b = ⟨a.x + b.x, a.y + b.y, a.z + b.z⟩ := rfl

theorem vec3_sub_def (a b : Vector3 ℝ) : a - b = ⟨a.x - b.x, a.y - b.y, a.z - b.z⟩ := rfl

theorem vec3_smul_def (r : ℝ) (v : Vector3 ℝ) : r • v = ⟨r * v.x, r * v.y, r * v.z⟩ := rfl

/-- cgmath `Vector3::dot`. -/
def Vector3.dot (a b : Vector3 ℝ) : ℝ := a.x * b.x + a.y * b.y + a.z * b.z

/-- cgmath `Vector3::cross`. -/
def Vector3.cross (a b : Vector3 ℝ) : Vector3 ℝ :=
  ⟨a.y * b.z - a.z * b.y, a.z * b.x - a.x * b.z, a.x * b.y - a.y * b.x⟩

/-- cgmath `InnerSpace::magnitude` = `sqrt (v ⬝ v)`. -/
noncomputable def Vector3.magnitude (v : Vector3 ℝ) : ℝ := Real.sqrt (v.dot v)

/-- cgmath `InnerSpace::normalize` = `v * (1 / magnitude v)`. -/
noncomputable def Vector3.normalize (v : Vector3 ℝ) : Vector3 ℝ :=
  (1 / v.magnitude) • v

/-- cgmath `Deg` → `Rad` conversion: `d * π / 180`. -/
noncomputable def radians (d : ℝ) : ℝ := d * (Real.pi / 180)

/-- cgmath `Matrix4<S>`; field `mIJ` holds row `I`, column `J` in the
usual mathematical convention. -/
@[ext]
structure Matrix4 where
  m00 : ℝ
  m01 : ℝ
  m02 : ℝ
  m03 : ℝ
  m10 : ℝ
  m11 : ℝ
  m12 : ℝ
  m13 : ℝ
  m20 : ℝ
  m21 : ℝ
  m22 : ℝ
  m23 : ℝ
  m30 : ℝ
  m31 : ℝ
  m32 : ℝ
  m33 : ℝ

/-- cgmath `Matrix4::new`, whose sixteen arguments are COLUMN-major
(`c0r0` = column 0 row 0 first), exactly as in the library. -/
def Matrix4.new (c0r0 c0r1 c0r2 c0r3 c1r0 c1r1 c1r2 c1r3
    c2r0 c2r1 c2r2 c2r3 c3r0 c3r1 c3r2 c3r3 : ℝ) : Matrix4 :=
  ⟨c0r0, c1r0, c2r0, c3r0,
   c0r1, c1r1, c2r1, c3r1,
   c0r2, c1r2, c2r2, c3r2,
   c0r3, c1r3, c2r3, c3r3⟩

/-- Row-by-column matrix product, cgmath's `Mul` for `Matrix4`. -/
def Matrix4.mul (A B : Matrix4) : Matrix4 where
  m00 := A.m00 * B.m00 + A.m01 * B.m10 + A.m02 * B.m20 + A.m03 * B.m30
  m01 := A.m00 * B.m01 + A.m01 * B.m11 + A.m02 * B.m21 + A.m03 * B.m31
  m02 := A.m00 * B.m02 + A.m01 * B.m12 + A.m02 * B.m22 + A.m03 * B.m32
  m03 := A.m00 * B.m03 + A.m01 * B.m13 + A.m02 * B.m23 + A.m03 * B.m33
  m10 := A.m10 * B.m00 + A.m11 * B.m10 + A.m12 * B.m20 + A.m13 * B.m30
  m11 := A.m10 * B.m01 + A.m11 * B.m11 + A.m12 * B.m21 + A.m13 * B.m31
  m12 := A.m10 * B.m02 + A.m11 * B.m12 + A.m12 * B.m22 + A.m13 * B.m32
  m13 := A.m10 * B.m03 + A.m11 * B.m13 + A.m12 * B.m23 + A.m13 * B.m33
  m20 := A.m20 * B.m00 + A.m21 * B.m10 + A.m22 * B.m20 + A.m23 * B.m30
  m21 := A.m20 * B.m01 + A.m21 * B.m11 + A.m22 * B.m21 + A.m23 * B.m31
  m22 := A.m20 * B.m02 + A.m21 * B.m12 + A.m22 * B.m22 + A.m23 * B.m32
  m23 := A.m20 * B.m03 + A.m21 * B.m13 + A.m22 * B.m23 + A.m23 * B.m33
  m30 := A.m30 * B.m00 + A.m31 * B.m10 + A.m32 * B.m20 + A.m33 * B.m30
  m31 := A.m30 * B.m01 + A.m31 * B.m11 + A.m32 * B.m21 + A.m33 * B.m31
  m32 := A.m30 * B.m02 + A.m31 * B.m12 + A.m32 * B.m22 + A.m33 * B.m32
  m33 := A.m30 * B.m03 + A.m31 * B.m13 + A.m32 * B.m23 + A.m33 * B.m33

instance : Mul Matrix4 := ⟨Matrix4.mul⟩

theorem mat4_mul_def (A B : Matrix4) : A * B = A.mul B := rfl

/-- cgmath `Matrix4::identity`. -/
def Matrix4.identity : Matrix4 :=
  ⟨1, 0, 0, 0,
   0, 1, 0, 0,
   0, 0, 1, 0,
   0, 0, 0, 1⟩

/-- cgmath `Matrix4::look_at_rh(eye, center, up)`:
`f = normalize (center - eye)`, `s = normalize (f × up)`, `u = s × f`,
assembled column-major. -/
noncomputable def Matrix4.look_at_rh (eye center up : Vector3 ℝ) : Matrix4 :=
  let f := (center - eye).normalize
  let s := (f.cross up).normalize
  let u := s.cross f
  Matrix4.new
    s.x u.x (-f.x) 0
    s.y u.y (-f.y) 0
    s.z u.z (-f.z) 0
    (-(eye.dot s)) (-(eye.dot u)) (eye.dot f) 1

/-- cgmath `perspective(Deg(fovy), aspect, near, far)`: the
`PerspectiveFov` → `Matrix4` conversion with `f = cot (fovy / 2)`
(angle first converted from degrees to radians). -/
noncomputable def perspective (fovyDeg aspect near far : ℝ) : Matrix4 :=
  let f := (Real.tan (radians fovyDeg / 2))⁻¹
  Matrix4.new
    (f / aspect) 0 0 0
    0 f 0 0
    0 0 ((far + near) / (near - far)) (-1)
    0 0 ((2 * far * near) / (near - far)) 0

/-- cgmath `Matrix4::from_angle_z(Deg θ)` (column-major `c, s, 0, 0 | -s,
c, 0, 0 | …`). -/
noncomputable def Matrix4.from_angle_z (θDeg : ℝ) : Matrix4 :=
  let c := Real.cos (radians θDeg)
  let s := Real.sin (radians θDeg)
  Matrix4.new
    c s 0 0
    (-s) c 0 0
    0 0 1 0
    0 0 0 1

/-- cgmath `Quaternion<S>`: scalar part `s`, vector part `v`. -/
structure Quaternion where
  s : ℝ
  v : Vector3 ℝ

/-- cgmath `Quaternion::from_axis_angle(axis, Deg θ)`:
`(cos (θ/2), sin (θ/2) • axis)` with the angle in radians. -/
noncomputable def Quaternion.from_axis_angle (axis : Vector3 ℝ) (θDeg : ℝ) : Quaternion :=
  ⟨Real.cos (radians θDeg / 2), Real.sin (radians θDeg / 2) • axis⟩

/-- cgmath's `Mul<Vector3>` for `Quaternion` (vector rotation):
`t = 2 (v × vec)`; result `vec + s • t + v × t`. -/
noncomputable def Quaternion.rotate (q : Quaternion) (vec : Vector3 ℝ) : Vector3 ℝ :=
  let t := (2 : ℝ) • (q.v.cross vec)
  vec + q.s • t + q.v.cross t

end cgmath

/-! ### `src/camera.rs` -/

namespace camera

open cgmath

/-- `camera.rs` `OPENGL_TO_WGPU_MATRIX` (column-major literal as in the
source; it rescales clip-space depth from [-1,1] to [0,1]). -/
noncomputable def OPENGL_TO_WGPU_MATRIX : Matrix4 :=
  Matrix4.new
    1 0 0 0
    0 1 0 0
    0 0 (1/2) 0
    0 0 (1/2) 1

/-- `camera.rs` `Camera`. -/
structure Camera where
  eye : Vector3 ℝ
  target : Vector3 ℝ
  up : Vector3 ℝ
  aspect : ℝ
  fovy : ℝ
  znear : ℝ
  zfar : ℝ

/-- `camera.rs` `Camera::new(config)`. -/
noncomputable def Camera.new (config : wgpu.SurfaceConfiguration) : Camera where
  eye := ⟨0, 1, 2⟩
  target := ⟨0, 0, 0⟩
  up := ⟨0, 1, 0⟩
  aspect := (config.width : ℝ) / (config.height : ℝ)
  fovy := 45
  znear := 1/10
  zfar := 100

/-- `camera.rs` `Camera::build_view_projection_matrix`: `proj * view`
with `view = look_at_rh eye target up` and `proj = perspective (Deg fovy)
aspect znear zfar`. -/
noncomputable def Camera.build_view_projection_matrix (c : Camera) : Matrix4 :=
  let view := Matrix4.look_at_rh c.eye c.target c.up
  let proj := perspective c.fovy c.aspect c.znear c.zfar
  proj * view

/-- `camera.rs` `CameraStaging` (`model_rotation` is a `cgmath::Deg`). -/
structure CameraStaging where
  camera : Camera
  model_rotation : ℝ

/-- `camera.rs` `CameraStaging::new`. -/
def CameraStaging.new (c : Camera) : CameraStaging := ⟨c, 0⟩

/-- `camera.rs` `CameraUniform`. -/
structure CameraUniform where
  model_view_proj : Matrix4

/-- `camera.rs` `CameraStaging::update_camera`: writes
`OPENGL_TO_WGPU_MATRIX * build_view_projection_matrix * from_angle_z
model_rotation` into the uniform (Rust `*` associates to the left). -/
noncomputable def CameraStaging.update_camera (st : CameraStaging)
    (u : CameraUniform) : CameraUniform :=
  { u with model_view_proj :=
      OPENGL_TO_WGPU_MATRIX * st.camera.build_view_projection_matrix
        * Matrix4.from_angle_z st.model_rotation }

/-- `camera.rs` `CameraUniform::new`: the identity matrix. -/
def CameraUniform.new : CameraUniform := ⟨Matrix4.identity⟩

end camera

/-! ### `texture` module
The `texture.rs` file is not under `src/`; only the pieces the modelled
code touches are represented. -/

namespace texture

/-- Modelled from the spec: `DepthTexture` from the missing `texture.rs`
— "a depth-format image + view, sized to the surface; recreated whenever
the surface resizes".  Only its dimensions are observable here. -/
structure DepthTexture where
  width : ℕ
  height : ℕ
deriving DecidableEq

/-- `Texture::DEPTH_FORMAT` (an opaque format identifier). -/
def Texture.DEPTH_FORMAT : wgpu.TextureFormat := ⟨1⟩

/-- Modelled from the spec: `Texture::create_depth_texture(device,
config, label)` from the missing `texture.rs` — produces a depth texture
sized to the current surface configuration. -/
def Texture.create_depth_texture (config : wgpu.SurfaceConfiguration) : DepthTexture :=
  ⟨config.width, config.height⟩

end texture

/-! ### `instance` module
The `instance.rs` file is not under `src/`; the grid constructor is
modelled from the spec (§4.3). -/

/-- Modelled from the spec: the per-instance rotation from the missing
`instance.rs` — "rotation is identity quaternion for every instance
except when position is exactly the origin, where a fixed small-angle
rotation about Z is substituted".  The two possible values are
represented symbolically. -/
inductive InstanceRotation
  | identity
  | zKink
deriving DecidableEq

/-- Modelled from the spec: `Instance` from the missing `instance.rs` —
`position: vec3`, `rotation: quaternion` (represented symbolically by
`InstanceRotation`). -/
structure Instance where
  position : cgmath.Vector3 ℚ
  rotation : InstanceRotation
deriving DecidableEq

/-- Modelled from the spec: the grid element at `(row, col)` of the
missing `instance.rs` constructor — position `x = col - n/2`,
`z = row - n/2` (y = 0), scaled by `spacing`; rotation `zKink` exactly
when the position is the origin, identity otherwise. -/
def mkGridInstance (n : ℕ) (spacing : ℚ) (row col : ℕ) : Instance :=
  let position : cgmath.Vector3 ℚ :=
    ⟨spacing * ((col : ℚ) - (n : ℚ) / 2), 0, spacing * ((row : ℚ) - (n : ℚ) / 2)⟩
  { position := position
    rotation := if position = ⟨0, 0, 0⟩ then .zKink else .identity }

/-- Modelled from the spec: `Instance::instance_vec(n_per_row, spacing)`
from the missing `instance.rs` (the spec's `build_grid`) — "produces
n_per_row² instances positioned on a centered XZ grid", row-major
(instance `i` sits at row `i / n`, column `i % n`). -/
def Instance.instance_vec (n : ℕ) (spacing : ℚ) : List Instance :=
  (List.range (n * n)).map fun i => mkGridInstance n spacing (i / n) (i % n)

/-! ### `light` module
The `light.rs` file is not under `src/`; only the uniform's data is
needed, and the per-frame position rotation is written out inline in
`State::update` (`src/lib.rs` lines 304-308), which is embedded here. -/

namespace light

/-- Modelled from the spec: `LightUniform` from the missing `light.rs` —
"position: vec3, color: vec3 (padded to GPU alignment rules)"; the
padding words carry no information and are omitted. -/
structure LightUniform where
  position : cgmath.Vector3 ℝ
  color : cgmath.Vector3 ℝ

/-- The light-position advance of `State::update` (`src/lib.rs` lines
304-308): `position := Quaternion::from_axis_angle((0,1,0), Deg(1)) *
position` (the spec's `LightUniform::advance`). -/
noncomputable def LightUniform.advance (u : LightUniform) : LightUniform :=
  { u with position := (cgmath.Quaternion.from_axis_angle ⟨0, 1, 0⟩ 1).rotate u.position }

end light

/-! ### the parts of the newer `camera` module used by `src/lib.rs`
`src/lib.rs` imports a `camera` module with `Projection` and
`CameraController`, which is not under `src/` (the `camera.rs` that IS
under `src/` is an older revision); these are modelled from the spec. -/

namespace camera

/-- Modelled from the spec: `camera::Projection` from the missing newer
`camera.rs` — "`aspect`, `fovy`, `znear`, `zfar`.  Recomputed on resize;
aspect must equal `width/height`". -/
structure Projection where
  aspect : ℚ
  fovy : ℚ
  znear : ℚ
  zfar : ℚ
deriving DecidableEq

/-- Modelled from the spec: `Projection::resize(width, height)` —
"updates aspect ratio". -/
def Projection.resize (p : Projection) (width height : ℕ) : Projection :=
  { p with aspect := (width : ℚ) / (height : ℚ) }

/-- Modelled from the spec: `camera::CameraController` from the missing
newer `camera.rs` — "velocity accumulators for forward/right/vertical
motion, yaw/pitch deltas, scroll-driven zoom delta" plus the configured
speed and sensitivity (`CameraController::new(4.0, 0.4)`). -/
structure CameraController where
  amount_left : ℚ
  amount_right : ℚ
  amount_forward : ℚ
  amount_backward : ℚ
  amount_up : ℚ
  amount_down : ℚ
  scroll : ℚ
  speed : ℚ
  sensitivity : ℚ
deriving DecidableEq

/-- Modelled from the spec: `CameraController::new(speed, sensitivity)`. -/
def CameraController.new (speed sensitivity : ℚ) : CameraController :=
  { amount_left := 0, amount_right := 0, amount_forward := 0, amount_backward := 0
    amount_up := 0, amount_down := 0, scroll := 0
    speed := speed, sensitivity := sensitivity }

/-- Modelled from the spec: `CameraController::process_keyboard(key,
state)` — "sets/clears a unit velocity component per key; returns
whether the key was recognized". -/
def CameraController.process_keyboard (c : CameraController)
    (key : winit.VirtualKeyCode) (state : winit.ElementState) :
    CameraController × Bool :=
  let amount : ℚ := if state = winit.ElementState.pressed then 1 else 0
  match key with
  | .w | .up => ({ c with amount_forward := amount }, true)
  | .s | .down => ({ c with amount_backward := amount }, true)
  | .a | .left => ({ c with amount_left := amount }, true)
  | .d | .right => ({ c with amount_right := amount }, true)
  | .space => ({ c with amount_up := amount }, true)
  | .lshift => ({ c with amount_down := amount }, true)
  | _ => (c, false)

/-- Modelled from the spec: `CameraController::process_scroll(delta)` —
"accumulates a zoom impulse". -/
def CameraController.process_scroll (c : CameraController) (delta : ℚ) : CameraController :=
  { c with scroll := c.scroll + delta }

/-- Modelled from the spec: the controller's own bookkeeping inside
`CameraController::update_camera(camera, dt)` — "resets transient
accumulators (scroll impulse resets to zero after application;
continuous velocities persist until key release)".  The eye/yaw/pitch
integration mutates the (unmodelled) newer `Camera` and is not
observable by any claim. -/
def CameraController.update_camera (c : CameraController) (_dt : ℚ) : CameraController :=
  { c with scroll := 0 }

end camera

/-! ### `src/lib.rs`: the `State` struct and its methods -/

/-- Identifiers for the GPU buffers the modelled code writes or binds. -/
inductive BufferId
  | camera
  | light
  | instanceBuf
deriving DecidableEq

/-- Identifiers for the two render pipelines. -/
inductive PipelineId
  | light
  | model
deriving DecidableEq

/-- One recorded GPU command: either a queue-level uniform-buffer write
(`Queue::write_buffer`) or a render-pass command, in recording order. -/
inductive GpuOp
  | writeBuffer (buf : BufferId)
  | setVertexBuffer (slot : ℕ) (buf : BufferId)
  | setPipeline (p : PipelineId)
  | drawLightModel
  | drawModelInstancedWithMaterial (instances : ℕ)
  | drawModelInstanced (instances : ℕ)
deriving DecidableEq

/-- The load/store operations of the single render pass of
`State::render` (`src/lib.rs` lines 329-352): color clear value, depth
clear value and the two store flags. -/
structure RenderPassDesc where
  color_clear : ℚ × ℚ × ℚ × ℚ
  color_store : Bool
  depth_clear : ℚ
  depth_store : Bool
deriving DecidableEq

/-- `src/lib.rs` `State`, reduced to the fields the modelled methods
read or write.  GPU handles are represented by their observable data:
`surface_config` records the configuration last passed to
`Surface::configure`.  The newer `Camera`/`CameraUniform` values and the
loaded model are omitted: no claim observes them (their buffer writes
and draws are still recorded as `GpuOp`s). -/
structure State where
  config : wgpu.SurfaceConfiguration
  surface_config : wgpu.SurfaceConfiguration
  size : winit.PhysicalSize
  projection : camera.Projection
  camera_controller : camera.CameraController
  depth_texture : texture.DepthTexture
  light_uniform : light.LightUniform
  instances : List Instance
  use_debug : Bool
  mouse_pressed : Bool

/-- `State::resize` (`src/lib.rs` lines 243-253): guarded by
`new_size.width > 0 && new_size.height > 0`; on the positive branch it
updates the projection aspect, `size`, `config`, reconfigures the
surface with the updated config and recreates the depth texture; on the
zero branch nothing happens. -/
def State.resize (s : State) (new_size : winit.PhysicalSize) : State :=
  if 0 < new_size.width ∧ 0 < new_size.height then
    let config : wgpu.SurfaceConfiguration :=
      { s.config with width := new_size.width, height := new_size.height }
    { s with
      projection := s.projection.resize new_size.width new_size.height
      size := new_size
      config := config
      surface_config := config
      depth_texture := texture.Texture.create_depth_texture config }
  else s

/-- `State::input` (`src/lib.rs` lines 255-292): the space key sets
`use_debug` to whether the key is pressed and is consumed; any other
recognized key shape is forwarded to the camera controller; mouse wheel
and left mouse button are always consumed; everything else is not. -/
def State.input (s : State) (event : winit.WindowEvent) : State × Bool :=
  match event with
  | .keyboardInput state (some .space) =>
      ({ s with use_debug := decide (state = winit.ElementState.pressed) }, true)
  | .keyboardInput state (some key) =>
      let r := s.camera_controller.process_keyboard key state
      ({ s with camera_controller := r.1 }, r.2)
  | .mouseWheel delta =>
      ({ s with camera_controller := s.camera_controller.process_scroll delta }, true)
  | .mouseInput .left state =>
      ({ s with mouse_pressed := decide (state = winit.ElementState.pressed) }, true)
  | _ => (s, false)

/-- `State::update` (`src/lib.rs` lines 294-314): advances the camera
controller, writes the camera uniform buffer, rotates the light position
by the 1-degree Y-axis quaternion and writes the light uniform buffer.
Returns the new state and the queue writes issued, in order. -/
noncomputable def State.update (s : State) (dt : ℚ) : State × List GpuOp :=
  ({ s with
      camera_controller := s.camera_controller.update_camera dt
      light_uniform := s.light_uniform.advance },
   [.writeBuffer .camera, .writeBuffer .light])

/-- The render-pass descriptor of `State::render` (`src/lib.rs` lines
329-352): color cleared to `(0.1, 0.2, 0.3, 1.0)` and stored, depth
cleared to `1.0` and stored. -/
def State.renderDesc (_ : State) : RenderPassDesc :=
  { color_clear := (1/10, 1/5, 3/10, 1)
    color_store := true
    depth_clear := 1
    depth_store := true }

/-- The commands recorded inside the render pass of `State::render`
(`src/lib.rs` lines 354-380; identical in `renderer.rs` lines 120-146):
bind the instance buffer at vertex slot 1, bind the light pipeline and
draw the light model, then bind the model pipeline and issue the
instanced draw — with the debug material iff `use_debug`. -/
def State.renderOps (s : State) : List GpuOp :=
  [.setVertexBuffer 1 .instanceBuf,
   .setPipeline .light,
   .drawLightModel,
   .setPipeline .model,
   if s.use_debug then .drawModelInstancedWithMaterial s.instances.length
   else .drawModelInstanced s.instances.length]

/-- `State::render` (`src/lib.rs` lines 316-387): the `?` on
`Surface::get_current_texture` propagates a surface error before
anything is recorded; otherwise the pass is recorded and submitted.
The acquisition outcome is an explicit input. -/
def State.render (s : State) (acquire : Option wgpu.SurfaceError) :
    Except wgpu.SurfaceError (RenderPassDesc × List GpuOp) :=
  match acquire with
  | some e => .error e
  | none => .ok (s.renderDesc, s.renderOps)

/-- The surface-error match of the event loop (`src/lib.rs` lines
445-453): `Lost`/`Outdated` → `state.resize(state.size)`;
`OutOfMemory` → `ControlFlow::Exit`; `Timeout` → log only.  Returns the
state after the arm and the control flow (which the top of the event
loop had set to `Poll`). -/
def handleSurfaceError (s : State) (e : wgpu.SurfaceError) : State × winit.ControlFlow :=
  match e with
  | .lost | .outdated => (s.resize s.size, .poll)
  | .outOfMemory => (s, .exit)
  | .timeout => (s, .poll)

/-! ### `src/renderer.rs`: the pipeline builder -/

namespace renderer

/-- `renderer.rs` `RenderPipeline`: the built pipeline, represented by
the descriptor it was created from (the only observable data). -/
structure RenderPipeline where
  descriptor : wgpu.RenderPipelineDescriptor
deriving DecidableEq

/-- `renderer.rs` `RenderPipeline::new` (lines 8-68): fills in the fixed
rasterization, depth-stencil, blend and multisample policy around the
supplied layout, formats, vertex layouts and shader. -/
def RenderPipeline.new (layout : wgpu.PipelineLayout)
    (color_format : wgpu.TextureFormat)
    (depth_format : Option wgpu.TextureFormat)
    (vertex_layouts : List wgpu.VertexBufferLayout)
    (shader : wgpu.ShaderModuleDescriptor) : RenderPipeline where
  descriptor :=
    { layout := some layout
      vertex := { module := shader, entry_point := "vs_main", buffers := vertex_layouts }
      fragment := some
        { module := shader
          entry_point := "fs_main"
          targets := [{ format := color_format
                        blend := some { color := .REPLACE, alpha := .REPLACE }
                        write_mask := 15 }] }
      primitive :=
        { topology := .triangleList
          strip_index_format := none
          front_face := .ccw
          cull_mode := some .back
          polygon_mode := .fill
          unclipped_depth := false
          conservative := false }
      depth_stencil := depth_format.map fun format =>
        { format := format
          depth_write_enabled := true
          depth_compare := .less
          stencil := default
          bias := default }
      multisample := { count := 1, mask := 2 ^ 32 - 1, alpha_to_coverage_enabled := false }
      multiview := none }

end renderer

/-! ### Concrete data for witnesses and counterexamples -/

/-- A concrete rendering state (the startup configuration of
`State::new` with an 800×600 surface) used to instantiate theorems at
explicit inputs. -/
noncomputable def exampleState : State where
  config := ⟨800, 600⟩
  surface_config := ⟨800, 600⟩
  size := ⟨800, 600⟩
  projection := ⟨4/3, 45, 1/10, 100⟩
  camera_controller := camera.CameraController.new 4 (2/5)
  depth_texture := ⟨800, 600⟩
  light_uniform := ⟨⟨2, 2, 2⟩, ⟨1, 1, 1⟩⟩
  instances := Instance.instance_vec 10 3
  use_debug := false
  mouse_pressed := false

/-! ### Claim theorems: input, resize, error taxonomy, traces -/

/-- C10: `CameraUniform::new()` returns a uniform whose
`model_view_proj` field is the 4×4 identity matrix, so before the first
camera update the uniform holds exactly the identity transform. -/
theorem camera_uniform_new_identity :
    camera.CameraUniform.new.model_view_proj = cgmath.Matrix4.identity := rfl

/-- C8: every pipeline built by `RenderPipeline::new`, regardless of the
supplied layout, shader, formats and vertex layouts, has the fixed
rasterization policy: triangle-list topology, back-face culling,
counter-clockwise front face, fill polygon mode, multisample count 1,
REPLACE blending for color and alpha, and — exactly when a depth format
is supplied — a depth-stencil state with depth writes enabled, `Less`
comparison and the default (no-op) stencil. -/
theorem render_pipeline_fixed_raster_state (layout : wgpu.PipelineLayout)
    (color_format : wgpu.TextureFormat) (depth_format : Option wgpu.TextureFormat)
    (vertex_layouts : List wgpu.VertexBufferLayout)
    (shader : wgpu.ShaderModuleDescriptor) :
    (renderer.RenderPipeline.new layout color_format depth_format
        vertex_layouts shader).descriptor.primitive =
      { topology := .triangleList, strip_index_format := none, front_face := .ccw,
        cull_mode := some .back, polygon_mode := .fill,
        unclipped_depth := false, conservative := false }
    ∧ (renderer.RenderPipeline.new layout color_format depth_format
        vertex_layouts shader).descriptor.multisample =
      { count := 1, mask := 2 ^ 32 - 1, alpha_to_coverage_enabled := false }
    ∧ (renderer.RenderPipeline.new layout color_format depth_format
        vertex_layouts shader).descriptor.depth_stencil =
      depth_format.map (fun fmt =>
        { format := fmt, depth_write_enabled := true, depth_compare := .less,
          stencil := default, bias := default })
    ∧ (renderer.RenderPipeline.new layout color_format depth_format
        vertex_layouts shader).descriptor.fragment =
      some { module := shader, entry_point := "fs_main",
             targets := [{ format := color_format,
                           blend := some { color := .REPLACE, alpha := .REPLACE },
                           write_mask := 15 }] } :=
  ⟨rfl, rfl, rfl, rfl⟩

/-- C3: the event loop handles a render-surface error by taxonomy —
`Lost`/`Outdated` call `resize` with the current size (which, for a
positive current size, reconfigures the surface and recreates the depth
texture) and leave the control flow polling so the next frame retries;
`OutOfMemory` exits the loop with the state untouched; `Timeout` only
logs, with no command production and no state mutation. -/
theorem surface_error_taxonomy (s : State) :
    handleSurfaceError s .lost = (s.resize s.size, .poll)
    ∧ handleSurfaceError s .outdated = (s.resize s.size, .poll)
    ∧ handleSurfaceError s .outOfMemory = (s, .exit)
    ∧ handleSurfaceError s .timeout = (s, .poll)
    ∧ State.render s (some .timeout) = .error .timeout
    ∧ (0 < s.size.width → 0 < s.size.height →
        (handleSurfaceError s .lost).1.surface_config = ⟨s.size.width, s.size.height⟩
        ∧ (handleSurfaceError s .lost).1.depth_texture = ⟨s.size.width, s.size.height⟩) := by
  refine ⟨rfl, rfl, rfl, rfl, rfl, fun hw hh => ?_⟩
  simp [handleSurfaceError, State.resize, texture.Texture.create_depth_texture,
    if_pos (And.intro hw hh)]

/-- Witness for C3: at the concrete 800×600 state, a `Lost` error leads
to the surface and depth texture being reconfigured to 800×600. -/
theorem surface_error_taxonomy_witness :
    (handleSurfaceError exampleState .lost).1.surface_config = ⟨800, 600⟩
    ∧ (handleSurfaceError exampleState .lost).1.depth_texture = ⟨800, 600⟩ :=
  (surface_error_taxonomy exampleState).2.2.2.2.2 (by decide) (by decide)

/-- C4: in every successfully rendered frame the single render pass
first clears color to the fixed background `(0.1, 0.2, 0.3, 1.0)` and
depth to `1.0` with store enabled for both, and the recorded commands
bind the light pipeline and issue its draw strictly before the model
pipeline is bound and its instanced draw issued. -/
theorem render_pass_light_before_model (s : State) :
    s.renderDesc = { color_clear := (1/10, 1/5, 3/10, 1), color_store := true,
                     depth_clear := 1, depth_store := true }
    ∧ ∃ i j k l : ℕ, i < j ∧ j < k ∧ k < l
        ∧ s.renderOps[i]? = some (.setPipeline .light)
        ∧ s.renderOps[j]? = some .drawLightModel
        ∧ s.renderOps[k]? = some (.setPipeline .model)
        ∧ (s.renderOps[l]? = some (.drawModelInstancedWithMaterial s.instances.length)
           ∨ s.renderOps[l]? = some (.drawModelInstanced s.instances.length)) := by
  refine ⟨rfl, 1, 2, 3, 4, by norm_num, by norm_num, by norm_num, rfl, rfl, rfl, ?_⟩
  cases h : s.use_debug
  · right
    simp [State.renderOps, h]
  · left
    simp [State.renderOps, h]

/-- C5: `resize` with a zero dimension leaves the whole state unchanged
(in particular the projection keeps its previous aspect), while with
both dimensions positive the projection aspect, `size`, `config`, the
surface configuration and the depth texture are all updated to the new
dimensions (the projection's other fields are retained). -/
theorem resize_zero_noop_positive_updates (s : State) (ns : winit.PhysicalSize) :
    (ns.width = 0 ∨ ns.height = 0 → s.resize ns = s)
    ∧ (0 < ns.width → 0 < ns.height →
        (s.resize ns).projection
            = { s.projection with aspect := (ns.width : ℚ) / (ns.height : ℚ) }
        ∧ (s.resize ns).size = ns
        ∧ (s.resize ns).config = ⟨ns.width, ns.height⟩
        ∧ (s.resize ns).surface_config = ⟨ns.width, ns.height⟩
        ∧ (s.resize ns).depth_texture = ⟨ns.width, ns.height⟩) := by
  constructor
  · intro h
    have hneg : ¬(0 < ns.width ∧ 0 < ns.height) := by
      rcases h with h | h <;> simp [h]
    simp [State.resize, hneg]
  · intro hw hh
    simp [State.resize, camera.Projection.resize, texture.Texture.create_depth_texture,
      if_pos (And.intro hw hh)]

/-- Witness for C5: resizing the concrete 800×600 state to `(0, 123)` is
a no-op, and resizing it to `(1024, 768)` updates the configuration. -/
theorem resize_zero_noop_positive_updates_witness :
    exampleState.resize ⟨0, 123⟩ = exampleState
    ∧ (exampleState.resize ⟨1024, 768⟩).config = ⟨1024, 768⟩
    ∧ (exampleState.resize ⟨1024, 768⟩).projection.aspect = 4/3 := by
  have h0 := (resize_zero_noop_positive_updates exampleState ⟨0, 123⟩).1 (Or.inl rfl)
  have h1 := (resize_zero_noop_positive_updates exampleState ⟨1024, 768⟩).2
    (by decide) (by decide)
  refine ⟨h0, h1.2.2.1, ?_⟩
  rw [h1.1]
  norm_num

/-- C9: the instance buffer is write-once after startup — `update`
issues exactly the camera and light uniform-buffer writes (never a write
to the instance buffer), and `render` records no buffer write at all; it
only binds the instance buffer as a vertex buffer (slot 1). -/
theorem instance_buffer_write_once (s : State) (dt : ℚ) :
    (s.update dt).2 = [.writeBuffer .camera, .writeBuffer .light]
    ∧ (∀ op ∈ (s.update dt).2, ∀ b : BufferId, op = .writeBuffer b → b ≠ .instanceBuf)
    ∧ (∀ op ∈ s.renderOps, ∀ b : BufferId, op ≠ .writeBuffer b)
    ∧ GpuOp.setVertexBuffer 1 BufferId.instanceBuf ∈ s.renderOps := by
  refine ⟨rfl, ?_, ?_, ?_⟩
  · intro op hop b hb
    subst hb
    simp [State.update] at hop
    rcases hop with h | h <;> subst h <;> simp
  · intro op hop b
    cases h : s.use_debug <;> simp [State.renderOps, h] at hop <;>
      rcases hop with h1 | h1 | h1 | h1 | h1 <;> subst h1 <;> simp
  · cases h : s.use_debug <;> simp [State.renderOps, h]

/-- Witness for C9: in the concrete state's render trace the instance
buffer is bound as a vertex buffer, and the recorded light-pipeline bind
is not a buffer write. -/
theorem instance_buffer_write_once_witness :
    GpuOp.setVertexBuffer 1 BufferId.instanceBuf ∈ exampleState.renderOps
    ∧ GpuOp.setPipeline PipelineId.light ≠ GpuOp.writeBuffer BufferId.instanceBuf := by
  have h := instance_buffer_write_once exampleState 0
  refine ⟨h.2.2.2, h.2.2.1 (GpuOp.setPipeline PipelineId.light) ?_ BufferId.instanceBuf⟩
  simp [State.renderOps]

/-- C7: the instance-grid constructor is deterministic (equal arguments
give equal vectors), produces exactly `n²` instances, places instance
`i` at `(spacing·(col - n/2), 0, spacing·(row - n/2))` with
`col = i % n`, `row = i / n`, and gives every instance the identity
rotation except exactly those whose position is the origin, which carry
the fixed small-angle Z rotation. -/
theorem instance_vec_grid_spec (n : ℕ) (spacing : ℚ) :
    Instance.instance_vec n spacing = Instance.instance_vec n spacing
    ∧ (Instance.instance_vec n spacing).length = n * n
    ∧ ∀ i, i < n * n →
        (Instance.instance_vec n spacing)[i]? =
          some { position := ⟨spacing * ((i % n : ℕ) - (n : ℚ) / 2), 0,
                             spacing * ((i / n : ℕ) - (n : ℚ) / 2)⟩
                 rotation :=
                   if (⟨spacing * ((i % n : ℕ) - (n : ℚ) / 2), 0,
                       spacing * ((i / n : ℕ) - (n : ℚ) / 2)⟩ : cgmath.Vector3 ℚ)
                      = ⟨0, 0, 0⟩
                   then .zKink else .identity } := by
  refine ⟨rfl, by simp [Instance.instance_vec], ?_⟩
  intro i hi
  simp [Instance.instance_vec, List.getElem?_map, List.getElem?_range, hi, mkGridInstance]

/-- Witness for C7: the 2×2 grid with spacing 1 has 4 instances and its
instance 3 (row 1, col 1) sits exactly at the origin with the
non-identity rotation. -/
theorem instance_vec_grid_spec_witness :
    (Instance.instance_vec 2 1).length = 2 * 2
    ∧ (Instance.instance_vec 2 1)[3]? =
        some { position := ⟨0, 0, 0⟩, rotation := .zKink } := by
  have h := instance_vec_grid_spec 2 1
  refine ⟨h.2.1, ?_⟩
  rw [h.2.2 3 (by norm_num)]
  norm_num

/-- C1 counterexample: delivering a space press followed by a space
release to `input()` does NOT flip `use_debug` relative to its value
before the sequence — from the concrete state with `use_debug = false`
the sequence ends with `use_debug = false` again, not `true`. -/
theorem input_space_press_release_not_toggle :
    ¬ ((((exampleState.input (.keyboardInput .pressed (some .space))).1.input
          (.keyboardInput .released (some .space))).1.use_debug)
        = !exampleState.use_debug) := by
  simp [State.input, exampleState]

/-- C1 (amended): a space key event delivered to `input()` is always
consumed and sets `use_debug` to whether the key is pressed (the flag
follows the key state instead of toggling, so a press-release sequence
always ends with `use_debug = false`); the next render records the
debug-material instanced draw exactly when `use_debug` is true. -/
theorem input_space_sets_use_debug_from_key_state (s : State)
    (st : winit.ElementState) :
    (s.input (.keyboardInput st (some .space))).2 = true
    ∧ (s.input (.keyboardInput st (some .space))).1.use_debug
        = decide (st = winit.ElementState.pressed)
    ∧ (((s.input (.keyboardInput .pressed (some .space))).1.input
          (.keyboardInput .released (some .space))).1.use_debug = false)
    ∧ (GpuOp.drawModelInstancedWithMaterial s.instances.length ∈ s.renderOps
        ↔ s.use_debug = true) := by
  refine ⟨rfl, rfl, rfl, ?_⟩
  cases h : s.use_debug <;> simp [State.renderOps, h]

/-! ### Claim development: light rotation (C6) -/

/-- The mathematical rotation of a vector about the world Y axis by `θ`
radians — the reference transform the quaternion advance is measured
against. -/
noncomputable def rotY (θ : ℝ) (p : cgmath.Vector3 ℝ) : cgmath.Vector3 ℝ :=
  ⟨Real.cos θ * p.x + Real.sin θ * p.z, p.y, -Real.sin θ * p.x + Real.cos θ * p.z⟩

theorem rotY_zero (p : cgmath.Vector3 ℝ) : rotY 0 p = p := by
  ext <;> simp [rotY]

theorem rotY_comp (a b : ℝ) (p : cgmath.Vector3 ℝ) :
    rotY a (rotY b p) = rotY (a + b) p := by
  ext <;> simp [rotY, Real.cos_add, Real.sin_add] <;> ring

/-- The cgmath quaternion sandwich with the `(0,1,0)`/1-degree
quaternion is exactly the Y-axis rotation by 1 degree. -/
theorem quaternion_y_axis_rotate (p : cgmath.Vector3 ℝ) :
    (cgmath.Quaternion.from_axis_angle ⟨0, 1, 0⟩ 1).rotate p
      = rotY (cgmath.radians 1) p := by
  have h2 : 2 * (cgmath.radians 1 / 2) = cgmath.radians 1 := by ring
  have hs := Real.sin_two_mul (cgmath.radians 1 / 2)
  rw [h2] at hs
  have hc := Real.cos_two_mul (cgmath.radians 1 / 2)
  rw [h2] at hc
  have hpyth := Real.sin_sq_add_cos_sq (cgmath.radians 1 / 2)
  have hc' : Real.cos (cgmath.radians 1)
      = 1 - 2 * Real.sin (cgmath.radians 1 / 2) ^ 2 := by
    rw [hc]
    linarith
  ext <;>
    simp [cgmath.Quaternion.rotate, cgmath.Quaternion.from_axis_angle,
      cgmath.Vector3.cross, rotY, cgmath.vec3_add_def, cgmath.vec3_smul_def, hs, hc'] <;>
    ring

theorem light_advance_closed_form (u : light.LightUniform) :
    u.advance = ⟨rotY (cgmath.radians 1) u.position, u.color⟩ := by
  unfold light.LightUniform.advance
  rw [quaternion_y_axis_rotate]

theorem light_advance_iterate (n : ℕ) (u : light.LightUniform) :
    light.LightUniform.advance^[n] u
      = ⟨rotY ((n : ℝ) * cgmath.radians 1) u.position, u.color⟩ := by
  induction n with
  | zero => simp [rotY_zero]
  | succ n ih =>
      rw [Function.iterate_succ_apply', ih, light_advance_closed_form, rotY_comp]
      have hang : ((n + 1 : ℕ) : ℝ) * cgmath.radians 1
          = cgmath.radians 1 + (n : ℝ) * cgmath.radians 1 := by
        push_cast
        ring
      rw [hang]

/-- C6: each `update` step advances the light position by exactly the
1-degree rotation about the world Y axis (leaving the Y component
unchanged), and 360 applications of the advance return the light — here
in exact real arithmetic, hence a fortiori within floating-point
tolerance — to its starting value. -/
theorem light_advance_rotation_closure (s : State) (dt : ℚ)
    (u : light.LightUniform) :
    (s.update dt).1.light_uniform = s.light_uniform.advance
    ∧ u.advance.position = rotY (cgmath.radians 1) u.position
    ∧ u.advance.position.y = u.position.y
    ∧ light.LightUniform.advance^[360] u = u := by
  refine ⟨rfl, ?_, ?_, ?_⟩
  · rw [light_advance_closed_form]
  · rw [light_advance_closed_form]
    simp [rotY]
  · rw [light_advance_iterate]
    have h : ((360 : ℕ) : ℝ) * cgmath.radians 1 = 2 * Real.pi := by
      simp only [cgmath.radians]
      push_cast
      ring
    rw [h]
    have hfix : rotY (2 * Real.pi) u.position = u.position := by
      ext <;> simp [rotY, Real.cos_two_pi, Real.sin_two_pi]
    rw [hfix]

/-! ### Claim development: camera matrix factor order (C2) -/

/-- The combination C2 asserts for `update_camera`: projection × view
with the depth-range correction as the RIGHTMOST factor and no other
factor.  Written from the claim's words, for comparison with the
source-embedded `CameraStaging.update_camera`. -/
noncomputable def update_camera_claimed (st : camera.CameraStaging) : cgmath.Matrix4 :=
  (cgmath.perspective st.camera.fovy st.camera.aspect st.camera.znear st.camera.zfar
      * cgmath.Matrix4.look_at_rh st.camera.eye st.camera.target st.camera.up)
    * camera.OPENGL_TO_WGPU_MATRIX

/-- A concrete camera whose view and projection matrices have exact
rational entries: eye on the +Z axis looking at the origin, 90° vertical
field of view, unit aspect, near 1, far 3. -/
noncomputable def exCamera : camera.Camera where
  eye := ⟨0, 0, 1⟩
  target := ⟨0, 0, 0⟩
  up := ⟨0, 1, 0⟩
  aspect := 1
  fovy := 90
  znear := 1
  zfar := 3

/-- The concrete staging for the C2 counterexample (model rotation 0,
so the claimed and actual products differ only in where the correction
matrix sits). -/
noncomputable def exStaging : camera.CameraStaging := ⟨exCamera, 0⟩

theorem ex_look_at :
    cgmath.Matrix4.look_at_rh ⟨0, 0, 1⟩ ⟨0, 0, 0⟩ ⟨0, 1, 0⟩ =
      ⟨1, 0, 0, 0, 0, 1, 0, 0, 0, 0, 1, -1, 0, 0, 0, 1⟩ := by
  simp only [cgmath.Matrix4.look_at_rh, cgmath.vec3_sub_def, cgmath.Vector3.normalize,
    cgmath.Vector3.magnitude, cgmath.Vector3.dot, cgmath.Vector3.cross,
    cgmath.vec3_smul_def, cgmath.Matrix4.new]
  norm_num [Real.sqrt_one]

theorem ex_perspective :
    cgmath.perspective 90 1 1 3 =
      ⟨1, 0, 0, 0, 0, 1, 0, 0, 0, 0, -2, -3, 0, 0, -1, 0⟩ := by
  have h : cgmath.radians 90 / 2 = Real.pi / 4 := by
    simp only [cgmath.radians]
    ring
  simp only [cgmath.perspective, h, Real.tan_pi_div_four, cgmath.Matrix4.new]
  norm_num

theorem ex_from_angle_z :
    cgmath.Matrix4.from_angle_z 0 = cgmath.Matrix4.identity := by
  simp only [cgmath.Matrix4.from_angle_z, cgmath.radians, cgmath.Matrix4.new,
    cgmath.Matrix4.identity]
  norm_num

/-- C2 counterexample: at the concrete staging, the matrix
`update_camera` actually writes differs from the claimed
`projection × view × correction` (correction rightmost, no other
factor) — their row-2/column-3 entries are 0 and −2 respectively. -/
theorem update_camera_correction_not_rightmost :
    (exStaging.update_camera camera.CameraUniform.new).model_view_proj
      ≠ update_camera_claimed exStaging := by
  intro h
  have h23 := congrArg cgmath.Matrix4.m23 h
  simp only [camera.CameraStaging.update_camera, camera.Camera.build_view_projection_matrix,
    update_camera_claimed, exStaging, exCamera] at h23
  rw [ex_perspective, ex_look_at, ex_from_angle_z] at h23
  simp only [cgmath.mat4_mul_def, cgmath.Matrix4.mul, camera.OPENGL_TO_WGPU_MATRIX,
    cgmath.Matrix4.new, cgmath.Matrix4.identity] at h23
  norm_num at h23

/-- C2 (amended): for every camera staging, `update_camera` writes
exactly `correction × (projection × view) × rotZ(model_rotation)` into
`model_view_proj` — the depth-range correction matrix is the LEFTMOST
factor, and the model rotation about Z appears as an additional
rightmost factor. -/
theorem update_camera_factor_order (st : camera.CameraStaging)
    (u : camera.CameraUniform) :
    (st.update_camera u).model_view_proj =
      camera.OPENGL_TO_WGPU_MATRIX
        * (cgmath.perspective st.camera.fovy st.camera.aspect st.camera.znear st.camera.zfar
            * cgmath.Matrix4.look_at_rh st.camera.eye st.camera.target st.camera.up)
        * cgmath.Matrix4.from_angle_z st.model_rotation := rfl
